import Mathlib

/-!
# gofiber-newrelic-apm: the request-transaction lifecycle of `fiber.go`

A shallow embedding of `src/fiber.go` (package `newrelicapm`).

Modelling conventions.

* A Go `error` value is `Option String`: `none` is the nil error, `some msg`
  is a non-nil error; two errors are the same error when they are equal.
* A Go pointer `*newrelic.Transaction` is `Option Transaction` (`none` is the
  nil pointer); likewise `*newrelic.Segment`.
* An `interface{}` value stored in the locals of a request is `Option Any`
  (`none` is the nil interface, which is also what a missing key reads as).
* The New Relic agent and `net/url` are external collaborators.  Every call
  made to the agent is recorded as a `Call`; a function of this package
  returns the list of calls it makes, oldest first.  What the collaborators
  answer (`newrelic.NewApplication`, `url.Parse`) is a parameter, `Deps`.
* `c.Next()` runs the rest of the handler chain on the same request context.
  The chain is a parameter `next : Chain`: it receives the context and the
  process-wide log of agent calls made so far, and answers with its error, the
  context as it left it, and the agent calls it made itself.
* `defer` statements push on a stack that is run last-in-first-out when the
  function returns; the function value (with its receiver) and the arguments
  of a deferred call are evaluated when the `defer` statement executes.
-/

namespace Newrelicapm

/-- The application handle returned by `newrelic.NewApplication`. -/
structure Application where
  handle : Nat
  deriving DecidableEq, Repr

/-- The transaction object behind a `*newrelic.Transaction`.  A transaction is
identified by the position of its `StartTransaction` call in the process-wide
log of agent calls, so that every started transaction is a fresh object. -/
structure Transaction where
  id : Nat
  deriving DecidableEq, Repr

/-- The segment object behind a `*newrelic.Segment`. -/
structure Segment where
  tx : Transaction
  name : String
  deriving DecidableEq, Repr

/-- The result of a successful `url.Parse`. -/
structure URL where
  raw : String
  deriving DecidableEq, Repr

/-- The struct `newrelic.WebRequest`, with the fields the middleware sets. -/
structure WebRequest where
  URL : URL
  Method : String
  Transport : String
  Host : String
  deriving DecidableEq, Repr

/-- The writer returned by `txn.SetWebResponse(nil)`; it is bound to the
transaction it was obtained from. -/
structure ResponseWriter where
  tx : Transaction
  deriving DecidableEq, Repr

/-- The calls this package makes to the New Relic agent. -/
inductive Call where
  | NewApplication (appName license : String) (enabled : Bool)
  | StartTransaction (app : Application) (name : String)
  | SetWebRequest (tx : Transaction) (r : WebRequest)
  | NoticeError (tx : Transaction) (err : Option String)
  | SetWebResponse (tx : Transaction)
  | WriteHeader (w : ResponseWriter) (code : Nat)
  | End (tx : Transaction)
  | AddAttribute (tx : Transaction) (key value : String)
  | StartSegment (tx : Transaction) (name : String)
  deriving DecidableEq, Repr

/-- A dynamically typed value held in the locals of a request: either a
`*newrelic.Transaction` (possibly the nil pointer) or a value of some other
dynamic type. -/
inductive Any where
  | tx (p : Option Transaction)
  | other (v : String)
  deriving DecidableEq, Repr

/-- The request context `*fiber.Ctx`, with the parts `fiber.go` reads or
writes: the method, the route path, the original URL, the host name, the
request-scoped locals and the status code of the response. -/
structure Ctx where
  method : String
  path : String
  originalURL : String
  hostname : String
  locals : String → Option Any
  statusCode : Nat

/-- The getter `c.Locals(key)`. -/
def Ctx.Locals (c : Ctx) (key : String) : Option Any :=
  c.locals key

/-- The setter `c.Locals(key, value)`: overwrites the slot `key`. -/
def Ctx.setLocals (c : Ctx) (key : String) (value : Option Any) : Ctx :=
  { c with locals := fun k => if k = key then value else c.locals k }

/-- What running a handler (or the rest of the chain) produces: the returned
error, the request context afterwards, and the agent calls made, oldest
first. -/
structure Outcome where
  err : Option String
  ctx : Ctx
  calls : List Call

/-- The rest of the handler chain, as run by `c.Next()`: a function of the
request context and of the agent calls made in the process so far. -/
abbrev Chain := Ctx → List Call → Outcome

/-- A `fiber.Handler`: it is given what `c.Next()` runs, the request context,
and the agent calls made in the process so far. -/
abbrev Handler := Chain → Ctx → List Call → Outcome

/-- The external collaborators: whether `newrelic.NewApplication` succeeds (and
with which handle), and what `url.Parse` answers (`none` is a parse error). -/
structure Deps where
  NewApplication : String → String → Bool → Except String Application
  Parse : String → Option URL

/-- The struct `Config`. -/
structure Config where
  License : String
  AppName : String
  Enabled : Bool
  TransportType : String
  deriving DecidableEq, Repr

/-- Modelled from the spec: the constant `newrelic.TransportHTTP` of the agent
library, which is not part of this repository; the spec names `HTTP` as the
default transport kind. -/
def TransportHTTP : String := "HTTP"

/-- The variable `ConfigDefault`. -/
def ConfigDefault : Config :=
  { License := ""
    AppName := "fiber-api"
    Enabled := false
    TransportType := TransportHTTP }

/-- The variable `txLocalTag`. -/
def txLocalTag : String := "newrelic-apm-tx"

/-- The method `app.StartTransaction(name)`: one agent call; the new
transaction is identified by the position of that call in the log. -/
def Application.StartTransaction (app : Application) (name : String) (hist : List Call) :
    Transaction × List Call :=
  (⟨hist.length⟩, [Call.StartTransaction app name])

/-- Function `getTX`: the type-checked read of the transaction slot. -/
def getTX (c : Ctx) : Option Transaction :=
  match c.Locals txLocalTag with
  | some (Any.tx p) => p
  | _ => none

/-- Function `SetLabel`; the result is the list of agent calls made. -/
def SetLabel (c : Ctx) (key value : String) : List Call :=
  match getTX c with
  | some tx => [Call.AddAttribute tx ("labels." ++ key) value]
  | none => []

/-- Function `StartSpan`; the result is the returned `*newrelic.Segment` and
the list of agent calls made. -/
def StartSpan (c : Ctx) (name : String) : Option Segment × List Call :=
  match getTX c with
  | none => (none, [])
  | some tx => (some ⟨tx, name⟩, [Call.StartSegment tx name])

/-- Function `Error`; the result is the list of agent calls made. -/
def Error (c : Ctx) (err : Option String) : List Call :=
  match getTX c with
  | some tx => [Call.NoticeError tx err]
  | none => []

/-- Function `noop`: returns nil; it does not call `c.Next()`. -/
def noop : Handler := fun _next c _hist =>
  ⟨none, c, []⟩

/-- The closure returned by `New` on the active path (lines 91-114), for the
configuration `cfg` as normalised by `New` and the application `app`. -/
def middleware (deps : Deps) (cfg : Config) (app : Application) : Handler := fun next c hist =>
  -- txn := app.StartTransaction(c.Method() + " " + c.Path())
  let (txn, calls) := app.StartTransaction (c.method ++ " " ++ c.path) hist
  -- originalURL, err := url.Parse(c.OriginalURL())
  match deps.Parse c.originalURL with
  | none =>
    -- return c.Next()
    let d := next c (hist ++ calls)
    ⟨d.err, d.ctx, calls ++ d.calls⟩
  | some originalURL =>
    -- c.Locals(txLocalTag, txn)
    let c := c.setLocals txLocalTag (some (Any.tx (some txn)))
    -- txn.SetWebRequest(newrelic.WebRequest{...})
    let calls := calls ++ [Call.SetWebRequest txn
      { URL := originalURL
        Method := c.method
        Transport := cfg.TransportType
        Host := c.hostname }]
    -- err = c.Next()
    let d := next c (hist ++ calls)
    let err := d.err
    let c := d.ctx
    let calls := calls ++ d.calls
    -- if err != nil { txn.NoticeError(err) }
    let calls := if err ≠ none then calls ++ [Call.NoticeError txn err] else calls
    -- defer txn.SetWebResponse(nil).WriteHeader(c.Response().StatusCode()):
    -- the receiver and the argument are evaluated now, the call is deferred
    let calls := calls ++ [Call.SetWebResponse txn]
    let w : ResponseWriter := ⟨txn⟩
    let deferred : List Call := [Call.WriteHeader w c.statusCode]
    -- defer txn.End()
    let deferred := Call.End txn :: deferred
    -- return err: the deferred calls run, the last deferred first
    ⟨err, c, calls ++ deferred⟩

/-- What `New` produces: the returned handler, the lines printed with
`fmt.Println`, and the agent calls made while constructing it. -/
structure NewResult where
  handler : Handler
  stdout : List String
  calls : List Call

/-- Function `New`. -/
def New (deps : Deps) (cfg : Config) : NewResult :=
  let cfg := if cfg.TransportType ≠ "HTTP" ∧ cfg.TransportType ≠ "HTTPS"
    then { cfg with TransportType := ConfigDefault.TransportType } else cfg
  let cfg := if cfg.AppName = "" then { cfg with AppName := ConfigDefault.AppName } else cfg
  if cfg.License = "" then
    ⟨noop, ["unable to create New Relic Application -> License can not be empty"], []⟩
  else
    let calls := [Call.NewApplication cfg.AppName cfg.License cfg.Enabled]
    match deps.NewApplication cfg.AppName cfg.License cfg.Enabled with
    | .error err =>
      ⟨noop, ["unable to create New Relic Application -> %w " ++ err], calls⟩
    | .ok app =>
      ⟨middleware deps cfg app, [], calls⟩

/-! ## Observations on the log of agent calls -/

/-- Whether the call is a `StartTransaction`. -/
def Call.isStartTransaction : Call → Bool
  | .StartTransaction _ _ => true
  | _ => false

/-- Whether the call is a `NoticeError`. -/
def Call.isNoticeError : Call → Bool
  | .NoticeError _ _ => true
  | _ => false

/-- Whether the call is an `End`. -/
def Call.isEnd : Call → Bool
  | .End _ => true
  | _ => false

/-! ## Concrete collaborators and inputs used in the examples -/

/-- Whether the character is a hexadecimal digit. -/
def ishex (ch : Char) : Bool :=
  ch.isDigit || (ch.toNat ≥ 97 && ch.toNat ≤ 102) || (ch.toNat ≥ 65 && ch.toNat ≤ 70)

/-- Whether every `%` in the text is followed by two hexadecimal digits. -/
def validEscapes : List Char → Bool
  | [] => true
  | '%' :: a :: b :: rest => ishex a && ishex b && validEscapes rest
  | '%' :: _ => false
  | _ :: rest => validEscapes rest

/-- An instance of `url.Parse` for the examples: like `net/url`, it answers
with an error on a malformed percent escape (as in `/%zz`); everything else
parses. -/
def sampleParse (s : String) : Option URL :=
  if validEscapes s.toList then some ⟨s⟩ else none

/-- An instance of the collaborators for the examples: `NewApplication`
succeeds, `url.Parse` is `sampleParse`. -/
def sampleDeps : Deps :=
  { NewApplication := fun _ _ _ => .ok ⟨0⟩
    Parse := sampleParse }

/-- A request context with empty locals and response status 200. -/
def sampleCtx (method path originalURL : String) : Ctx :=
  { method := method
    path := path
    originalURL := originalURL
    hostname := "example.com"
    locals := fun _ => none
    statusCode := 200 }

/-- A downstream chain that makes no agent call and returns the error `e`. -/
def failWith (e : String) : Chain := fun c _ =>
  ⟨some e, c, []⟩

/-- A downstream chain that sets the response status to `code` and returns
nil. -/
def respond (code : Nat) : Chain := fun c _ =>
  ⟨none, { c with statusCode := code }, []⟩

/-- A downstream chain that calls `SetLabel(c, key, value)` and returns nil. -/
def labelling (key value : String) : Chain := fun c _ =>
  ⟨none, c, SetLabel c key value⟩

/-- The configuration of an instrumented service: license `abc`, application
`svc`, enabled, transport `HTTPS`. -/
def sampleConfig : Config :=
  { License := "abc"
    AppName := "svc"
    Enabled := true
    TransportType := "HTTPS" }

/-- A configuration without a license. -/
def unlicensedConfig : Config :=
  { License := ""
    AppName := "x"
    Enabled := true
    TransportType := "HTTP" }

/-! ## The shape of what `New` returns -/

/-- With an empty license `New` returns `noop`, prints one line and makes no
agent call. -/
theorem New_empty_license (deps : Deps) (cfg : Config) (hL : cfg.License = "") :
    (New deps cfg).handler = noop ∧ (New deps cfg).calls = [] := by
  unfold New
  by_cases hT : cfg.TransportType ≠ "HTTP" ∧ cfg.TransportType ≠ "HTTPS" <;>
    by_cases hA : cfg.AppName = "" <;> simp [hT, hA, hL]

/-- With a license and a successful client construction `New` returns the
middleware closure over the normalised configuration. -/
theorem New_active (deps : Deps) (cfg : Config) (app : Application)
    (hL : cfg.License ≠ "")
    (hA : deps.NewApplication (if cfg.AppName = "" then "fiber-api" else cfg.AppName)
      cfg.License cfg.Enabled = .ok app) :
    (New deps cfg).handler = middleware deps
      { License := cfg.License
        AppName := if cfg.AppName = "" then "fiber-api" else cfg.AppName
        Enabled := cfg.Enabled
        TransportType :=
          if cfg.TransportType = "HTTP" ∨ cfg.TransportType = "HTTPS" then cfg.TransportType
          else "HTTP" } app := by
  unfold New
  by_cases hT : cfg.TransportType = "HTTP" ∨ cfg.TransportType = "HTTPS"
  · have hT2 : ¬ (cfg.TransportType ≠ "HTTP" ∧ cfg.TransportType ≠ "HTTPS") := by tauto
    by_cases hN : cfg.AppName = "" <;>
      simp [hT, hT2, hN, hL, ConfigDefault] at hA ⊢ <;> simp [hA]
  · have hT2 : cfg.TransportType ≠ "HTTP" ∧ cfg.TransportType ≠ "HTTPS" := by tauto
    by_cases hN : cfg.AppName = "" <;>
      simp [hT, hT2, hN, hL, ConfigDefault, TransportHTTP] at hA ⊢ <;> simp [hA]

/-- The middleware on a request whose URL does not parse: the transaction is
started and the downstream chain is run; nothing else happens. -/
theorem middleware_parse_error (deps : Deps) (cfg : Config) (app : Application)
    (next : Chain) (c : Ctx) (hist : List Call) (hp : deps.Parse c.originalURL = none) :
    middleware deps cfg app next c hist =
      ⟨(next c (hist ++ [Call.StartTransaction app (c.method ++ " " ++ c.path)])).err,
       (next c (hist ++ [Call.StartTransaction app (c.method ++ " " ++ c.path)])).ctx,
       Call.StartTransaction app (c.method ++ " " ++ c.path) ::
         (next c (hist ++ [Call.StartTransaction app (c.method ++ " " ++ c.path)])).calls⟩ := by
  simp [middleware, hp, Application.StartTransaction]

/-- The middleware on a request whose URL parses. -/
theorem middleware_parse_ok (deps : Deps) (cfg : Config) (app : Application)
    (next : Chain) (c : Ctx) (hist : List Call) (u : URL)
    (hp : deps.Parse c.originalURL = some u) (d : Outcome)
    (hd : d = next (c.setLocals txLocalTag (some (Any.tx (some ⟨hist.length⟩))))
      (hist ++ [Call.StartTransaction app (c.method ++ " " ++ c.path),
        Call.SetWebRequest ⟨hist.length⟩ ⟨u, c.method, cfg.TransportType, c.hostname⟩])) :
    middleware deps cfg app next c hist =
      ⟨d.err, d.ctx,
       [Call.StartTransaction app (c.method ++ " " ++ c.path),
        Call.SetWebRequest ⟨hist.length⟩ ⟨u, c.method, cfg.TransportType, c.hostname⟩]
       ++ d.calls
       ++ (if d.err ≠ none then [Call.NoticeError ⟨hist.length⟩ d.err] else [])
       ++ [Call.SetWebResponse ⟨hist.length⟩, Call.End ⟨hist.length⟩,
           Call.WriteHeader ⟨⟨hist.length⟩⟩ d.ctx.statusCode]⟩ := by
  subst hd
  simp only [middleware, hp, Application.StartTransaction, Ctx.setLocals, List.cons_append,
    List.nil_append]
  split_ifs with h <;> simp

/-! ## The disabled path -/

/-- C1, evaluated at the failing input.  With an empty license the handler
returned by `New` does not run the downstream chain: where the chain would
return the error `boom` the handler returns nil, and where the chain would set
the response status to 404 the status stays 200.  Neither `New` nor the handler
makes an agent call. -/
theorem C1_noop_does_not_run_downstream :
    (failWith "boom" (sampleCtx "GET" "/health" "/health") []).err = some "boom" ∧
    ((New sampleDeps unlicensedConfig).handler (failWith "boom")
      (sampleCtx "GET" "/health" "/health") []).err = none ∧
    (respond 404 (sampleCtx "GET" "/health" "/health") []).ctx.statusCode = 404 ∧
    ((New sampleDeps unlicensedConfig).handler (respond 404)
      (sampleCtx "GET" "/health" "/health") []).ctx.statusCode = 200 ∧
    (New sampleDeps unlicensedConfig).calls = [] ∧
    ((New sampleDeps unlicensedConfig).handler (failWith "boom")
      (sampleCtx "GET" "/health" "/health") []).calls = [] := by
  decide

/-! ## Finalisation -/

/-- C2, evaluated at the failing input.  For the request `GET /%zz`, whose URL
does not parse, the active middleware starts a transaction and runs the
downstream chain, and makes no other agent call: `End` is invoked zero
times. -/
theorem C2_no_End_when_url_does_not_parse :
    sampleParse "/%zz" = none ∧
    ((New sampleDeps sampleConfig).handler (respond 200)
      (sampleCtx "GET" "/%zz" "/%zz") []).calls = [Call.StartTransaction ⟨0⟩ "GET /%zz"] ∧
    ((New sampleDeps sampleConfig).handler (respond 200)
      (sampleCtx "GET" "/%zz" "/%zz") []).calls.countP Call.isEnd = 0 := by
  decide

/-- C3, evaluated at the failing input.  For the request `GET /health` answered
with status 200, the agent calls of the active middleware are, in order:
`StartTransaction`, `SetWebRequest`, `SetWebResponse`, `End`, `WriteHeader 200`.
The status code is written after `End`. -/
theorem C3_status_written_after_End :
    ((New sampleDeps sampleConfig).handler (respond 200)
      (sampleCtx "GET" "/health" "/health") []).calls =
      [Call.StartTransaction ⟨0⟩ "GET /health",
       Call.SetWebRequest ⟨0⟩ ⟨⟨"/health"⟩, "GET", "HTTPS", "example.com"⟩,
       Call.SetWebResponse ⟨0⟩,
       Call.End ⟨0⟩,
       Call.WriteHeader ⟨⟨0⟩⟩ 200] ∧
    ((New sampleDeps sampleConfig).handler (respond 200)
      (sampleCtx "GET" "/health" "/health") []).calls.indexOf (Call.End ⟨0⟩) <
    ((New sampleDeps sampleConfig).handler (respond 200)
      (sampleCtx "GET" "/health" "/health") []).calls.indexOf (Call.WriteHeader ⟨⟨0⟩⟩ 200) := by
  decide

/-- On a request whose URL parses, the active middleware itself invokes `End`
once: the count of `End` calls is the count made downstream plus one. -/
theorem middleware_End_count_parse_ok (deps : Deps) (cfg : Config) (app : Application)
    (next : Chain) (c : Ctx) (hist : List Call) (u : URL)
    (hp : deps.Parse c.originalURL = some u) :
    (middleware deps cfg app next c hist).calls.countP Call.isEnd =
      (next (c.setLocals txLocalTag (some (Any.tx (some ⟨hist.length⟩))))
        (hist ++ [Call.StartTransaction app (c.method ++ " " ++ c.path),
          Call.SetWebRequest ⟨hist.length⟩ ⟨u, c.method, cfg.TransportType, c.hostname⟩])).calls.countP
        Call.isEnd + 1 := by
  rw [middleware_parse_ok deps cfg app next c hist u hp _ rfl]
  split_ifs <;> simp [List.countP_cons, List.countP_append, Call.isEnd]

/-! ## The returned value -/

/-- C4.  The active middleware returns exactly the error value the downstream
chain returned, on the parse-failure path (the chain runs on the unchanged
context) and on the parse-success path (the chain runs on the context with the
transaction stored). -/
theorem C4_returns_downstream_result (deps : Deps) (cfg : Config) (app : Application)
    (next : Chain) (c : Ctx) (hist : List Call)
    (hL : cfg.License ≠ "")
    (hA : deps.NewApplication (if cfg.AppName = "" then "fiber-api" else cfg.AppName)
      cfg.License cfg.Enabled = .ok app) :
    ((New deps cfg).handler next c hist).err =
      match deps.Parse c.originalURL with
      | none => (next c (hist ++ [Call.StartTransaction app (c.method ++ " " ++ c.path)])).err
      | some u =>
        (next (c.setLocals txLocalTag (some (Any.tx (some ⟨hist.length⟩))))
          (hist ++ [Call.StartTransaction app (c.method ++ " " ++ c.path),
            Call.SetWebRequest ⟨hist.length⟩
              { URL := u
                Method := c.method
                Transport :=
                  if cfg.TransportType = "HTTP" ∨ cfg.TransportType = "HTTPS"
                  then cfg.TransportType else "HTTP"
                Host := c.hostname }])).err := by
  rw [New_active deps cfg app hL hA]
  cases hp : deps.Parse c.originalURL with
  | none => rw [middleware_parse_error _ _ _ _ _ _ hp]
  | some u => rw [middleware_parse_ok _ _ _ _ _ _ u hp _ rfl]

/-- C4 at concrete inputs: the error `boom` comes back both for `GET /health`
and for `GET /%zz`. -/
theorem C4_returns_downstream_result_witness :
    (sampleConfig.License ≠ "" ∧
      sampleDeps.NewApplication (if sampleConfig.AppName = "" then "fiber-api"
        else sampleConfig.AppName) sampleConfig.License sampleConfig.Enabled = .ok ⟨0⟩) ∧
    ((New sampleDeps sampleConfig).handler (failWith "boom")
      (sampleCtx "GET" "/health" "/health") []).err = some "boom" ∧
    ((New sampleDeps sampleConfig).handler (failWith "boom")
      (sampleCtx "GET" "/%zz" "/%zz") []).err = some "boom" :=
  ⟨⟨by decide, rfl⟩,
   (C4_returns_downstream_result sampleDeps sampleConfig ⟨0⟩ (failWith "boom")
      (sampleCtx "GET" "/health" "/health") [] (by decide) rfl).trans (by decide),
   (C4_returns_downstream_result sampleDeps sampleConfig ⟨0⟩ (failWith "boom")
      (sampleCtx "GET" "/%zz" "/%zz") [] (by decide) rfl).trans (by decide)⟩

/-! ## Request metadata -/

/-- C5.  On a request whose URL parses, the second agent call of the active
middleware is `SetWebRequest` on the transaction just started, with `Transport`
equal to `cfg.TransportType` when that is exactly `HTTP` or `HTTPS` and to
`HTTP` otherwise; and every `SetWebRequest` in the calls of the handler that
was not made by the downstream chain carries that transport. -/
theorem C5_transport_of_web_request (deps : Deps) (cfg : Config) (app : Application)
    (next : Chain) (c : Ctx) (hist : List Call) (u : URL)
    (hL : cfg.License ≠ "")
    (hA : deps.NewApplication (if cfg.AppName = "" then "fiber-api" else cfg.AppName)
      cfg.License cfg.Enabled = .ok app)
    (hp : deps.Parse c.originalURL = some u) :
    ((New deps cfg).handler next c hist).calls.get? 1 =
      some (Call.SetWebRequest ⟨hist.length⟩
        { URL := u
          Method := c.method
          Transport :=
            if cfg.TransportType = "HTTP" ∨ cfg.TransportType = "HTTPS"
            then cfg.TransportType else "HTTP"
          Host := c.hostname }) ∧
    ∀ tx r, Call.SetWebRequest tx r ∈ ((New deps cfg).handler next c hist).calls →
      Call.SetWebRequest tx r ∈
        (next (c.setLocals txLocalTag (some (Any.tx (some ⟨hist.length⟩))))
          (hist ++ [Call.StartTransaction app (c.method ++ " " ++ c.path),
            Call.SetWebRequest ⟨hist.length⟩
              { URL := u
                Method := c.method
                Transport :=
                  if cfg.TransportType = "HTTP" ∨ cfg.TransportType = "HTTPS"
                  then cfg.TransportType else "HTTP"
                Host := c.hostname }])).calls ∨
      r.Transport =
        if cfg.TransportType = "HTTP" ∨ cfg.TransportType = "HTTPS"
        then cfg.TransportType else "HTTP" := by
  rw [New_active deps cfg app hL hA, middleware_parse_ok _ _ _ _ _ _ u hp _ rfl]
  refine ⟨by simp, ?_⟩
  intro tx r hmem
  simp only [List.mem_append, List.mem_cons, List.mem_singleton, List.not_mem_nil,
    or_false] at hmem
  rcases hmem with ((((h | h) | h) | h) | h)
  · exact absurd h (by simp)
  · right
    injection h with _ hr
    rw [hr]
  · exact Or.inl h
  · split_ifs at h <;> simp at h
  · rcases h with h | h | h <;> exact absurd h (by simp)

/-- C5 at concrete inputs: the lower-case `https` falls back to `HTTP`. -/
theorem C5_transport_of_web_request_witness :
    ("abc" ≠ "" ∧ sampleParse "/health" = some ⟨"/health"⟩) ∧
    ((New sampleDeps ⟨"abc", "svc", true, "https"⟩).handler (respond 200)
      (sampleCtx "GET" "/health" "/health") []).calls.get? 1 =
      some (Call.SetWebRequest ⟨0⟩ ⟨⟨"/health"⟩, "GET", "HTTP", "example.com"⟩) :=
  ⟨⟨by decide, by decide⟩,
   (C5_transport_of_web_request sampleDeps ⟨"abc", "svc", true, "https"⟩ ⟨0⟩ (respond 200)
      (sampleCtx "GET" "/health" "/health") [] ⟨"/health"⟩
      (by decide) rfl (by decide)).1.trans (by decide)⟩

/-! ## The annotation functions -/

/-- C6.  On a request context whose transaction slot does not hold a
transaction (the slot is empty, or holds a value of another type, or holds the
nil pointer), `SetLabel` and `Error` make no agent call and `StartSpan` makes
no agent call and returns the nil segment. -/
theorem C6_annotations_without_transaction (c : Ctx) (key value name : String)
    (err : Option String)
    (h : ∀ tx, c.Locals txLocalTag ≠ some (Any.tx (some tx))) :
    SetLabel c key value = [] ∧ Error c err = [] ∧ StartSpan c name = (none, []) := by
  have hg : getTX c = none := by
    unfold getTX
    cases hl : c.Locals txLocalTag with
    | none => rfl
    | some v =>
      cases v with
      | other s => rfl
      | tx p =>
        cases p with
        | none => rfl
        | some t => exact absurd hl (h t)
  simp [SetLabel, Error, StartSpan, hg]

/-- C6 at a concrete input: the slot holds a string instead of a
transaction. -/
theorem C6_annotations_without_transaction_witness :
    (∀ tx, ((sampleCtx "GET" "/health" "/health").setLocals txLocalTag
      (some (Any.other "x"))).Locals txLocalTag ≠ some (Any.tx (some tx))) ∧
    SetLabel ((sampleCtx "GET" "/health" "/health").setLocals txLocalTag
      (some (Any.other "x"))) "user" "42" = [] ∧
    Error ((sampleCtx "GET" "/health" "/health").setLocals txLocalTag
      (some (Any.other "x"))) (some "boom") = [] ∧
    StartSpan ((sampleCtx "GET" "/health" "/health").setLocals txLocalTag
      (some (Any.other "x"))) "db.query" = (none, []) :=
  ⟨fun _ => by simp [Ctx.Locals, Ctx.setLocals],
   C6_annotations_without_transaction _ "user" "42" "db.query" (some "boom")
     (fun _ => by simp [Ctx.Locals, Ctx.setLocals])⟩

/-- C10.  On a request context whose locals hold, under the key
`newrelic-apm-tx`, the transaction `tx`, `SetLabel` makes exactly one agent
call, `AddAttribute` on `tx` with the key `labels.` followed by `key` and with
the value `value`, and no other call. -/
theorem C10_SetLabel_adds_one_attribute (c : Ctx) (tx : Transaction) (key value : String)
    (h : c.locals "newrelic-apm-tx" = some (Any.tx (some tx))) :
    SetLabel c key value = [Call.AddAttribute tx ("labels." ++ key) value] := by
  simp [SetLabel, getTX, Ctx.Locals, txLocalTag, h]

/-- C10 at a concrete input: with transaction 7 stored in the slot, the label
`user` becomes the attribute `labels.user` on transaction 7. -/
theorem C10_SetLabel_adds_one_attribute_witness :
    ((sampleCtx "GET" "/health" "/health").setLocals txLocalTag
      (some (Any.tx (some ⟨7⟩)))).locals "newrelic-apm-tx" = some (Any.tx (some ⟨7⟩)) ∧
    SetLabel ((sampleCtx "GET" "/health" "/health").setLocals txLocalTag
      (some (Any.tx (some ⟨7⟩)))) "user" "42" = [Call.AddAttribute ⟨7⟩ "labels.user" "42"] :=
  ⟨by decide,
   (C10_SetLabel_adds_one_attribute _ ⟨7⟩ "user" "42" (by decide)).trans (by decide)⟩

/-! ## The active path -/

/-- C7.  On a request whose URL parses, the active middleware runs the
downstream chain on the context in which the transaction slot holds the
transaction returned by `StartTransaction` for this request: `getTX` on that
context returns it, so `SetLabel`, `StartSpan` and `Error` called there act on
it; and the middleware itself starts one transaction (the count of
`StartTransaction` calls is the count made downstream plus one). -/
theorem C7_slot_holds_started_transaction (deps : Deps) (cfg : Config) (app : Application)
    (c : Ctx) (hist : List Call) (u : URL) (c1 : Ctx) (hist1 : List Call)
    (hL : cfg.License ≠ "")
    (hA : deps.NewApplication (if cfg.AppName = "" then "fiber-api" else cfg.AppName)
      cfg.License cfg.Enabled = .ok app)
    (hp : deps.Parse c.originalURL = some u)
    (hc1 : c1 = c.setLocals txLocalTag (some (Any.tx (some ⟨hist.length⟩))))
    (hh1 : hist1 = hist ++ [Call.StartTransaction app (c.method ++ " " ++ c.path),
      Call.SetWebRequest ⟨hist.length⟩
        { URL := u
          Method := c.method
          Transport :=
            if cfg.TransportType = "HTTP" ∨ cfg.TransportType = "HTTPS"
            then cfg.TransportType else "HTTP"
          Host := c.hostname }]) :
    (app.StartTransaction (c.method ++ " " ++ c.path) hist).1 = ⟨hist.length⟩ ∧
    getTX c1 = some ⟨hist.length⟩ ∧
    (∀ key value, SetLabel c1 key value =
      [Call.AddAttribute ⟨hist.length⟩ ("labels." ++ key) value]) ∧
    (∀ name, StartSpan c1 name =
      (some ⟨⟨hist.length⟩, name⟩, [Call.StartSegment ⟨hist.length⟩ name])) ∧
    (∀ err, Error c1 err = [Call.NoticeError ⟨hist.length⟩ err]) ∧
    ∀ next : Chain,
      ((New deps cfg).handler next c hist).err = (next c1 hist1).err ∧
      ((New deps cfg).handler next c hist).ctx = (next c1 hist1).ctx ∧
      (∃ post, ((New deps cfg).handler next c hist).calls =
        [Call.StartTransaction app (c.method ++ " " ++ c.path),
         Call.SetWebRequest ⟨hist.length⟩
          { URL := u
            Method := c.method
            Transport :=
              if cfg.TransportType = "HTTP" ∨ cfg.TransportType = "HTTPS"
              then cfg.TransportType else "HTTP"
            Host := c.hostname }] ++ (next c1 hist1).calls ++ post) ∧
      ((New deps cfg).handler next c hist).calls.countP Call.isStartTransaction =
        (next c1 hist1).calls.countP Call.isStartTransaction + 1 := by
  have hg : getTX c1 = some ⟨hist.length⟩ := by
    subst hc1
    simp [getTX, Ctx.Locals, Ctx.setLocals]
  refine ⟨rfl, hg, ?_, ?_, ?_, ?_⟩
  · intro key value
    simp [SetLabel, hg]
  · intro name
    simp [StartSpan, hg]
  · intro err
    simp [Error, hg]
  · intro next
    subst hc1 hh1
    rw [New_active deps cfg app hL hA, middleware_parse_ok _ _ _ _ _ _ u hp _ rfl]
    refine ⟨rfl, rfl, ⟨_, by simp only [List.append_assoc]; rfl⟩, ?_⟩
    split_ifs <;>
      simp [List.countP_cons, List.countP_append, Call.isStartTransaction]

/-- C7 at a concrete input: a downstream chain that calls `SetLabel` reaches
the transaction started for `GET /health`. -/
theorem C7_slot_holds_started_transaction_witness :
    ("abc" ≠ "" ∧ sampleParse "/health" = some ⟨"/health"⟩) ∧
    getTX ((sampleCtx "GET" "/health" "/health").setLocals txLocalTag
      (some (Any.tx (some ⟨0⟩)))) = some ⟨0⟩ ∧
    ((New sampleDeps sampleConfig).handler (labelling "user" "42")
      (sampleCtx "GET" "/health" "/health") []).calls.countP Call.isStartTransaction = 1 ∧
    Call.AddAttribute ⟨0⟩ "labels.user" "42" ∈
      ((New sampleDeps sampleConfig).handler (labelling "user" "42")
        (sampleCtx "GET" "/health" "/health") []).calls :=
  ⟨⟨by decide, by decide⟩,
   (C7_slot_holds_started_transaction sampleDeps sampleConfig ⟨0⟩
      (sampleCtx "GET" "/health" "/health") [] ⟨"/health"⟩ _ _
      (by decide) rfl (by decide) rfl rfl).2.1,
   ((C7_slot_holds_started_transaction sampleDeps sampleConfig ⟨0⟩
      (sampleCtx "GET" "/health" "/health") [] ⟨"/health"⟩ _ _
      (by decide) rfl (by decide) rfl rfl).2.2.2.2.2 (labelling "user" "42")).2.2.2.trans
      (by decide),
   by decide⟩

/-- C8.  On a request whose URL parses, with `d` the outcome of the downstream
chain: if the chain returned the error `e`, the active middleware calls
`NoticeError` on the transaction of the request with `e`, right after the
chain, and makes no other `NoticeError` call (the count is the count made
downstream plus one); if the chain returned nil, the middleware makes no
`NoticeError` call (the count is the count made downstream). -/
theorem C8_NoticeError_on_downstream_error (deps : Deps) (cfg : Config) (app : Application)
    (next : Chain) (c : Ctx) (hist : List Call) (u : URL) (d : Outcome)
    (hL : cfg.License ≠ "")
    (hA : deps.NewApplication (if cfg.AppName = "" then "fiber-api" else cfg.AppName)
      cfg.License cfg.Enabled = .ok app)
    (hp : deps.Parse c.originalURL = some u)
    (hd : d = next (c.setLocals txLocalTag (some (Any.tx (some ⟨hist.length⟩))))
      (hist ++ [Call.StartTransaction app (c.method ++ " " ++ c.path),
        Call.SetWebRequest ⟨hist.length⟩
          { URL := u
            Method := c.method
            Transport :=
              if cfg.TransportType = "HTTP" ∨ cfg.TransportType = "HTTPS"
              then cfg.TransportType else "HTTP"
            Host := c.hostname }])) :
    (∀ e, d.err = some e →
      ((New deps cfg).handler next c hist).calls =
        [Call.StartTransaction app (c.method ++ " " ++ c.path),
         Call.SetWebRequest ⟨hist.length⟩
          { URL := u
            Method := c.method
            Transport :=
              if cfg.TransportType = "HTTP" ∨ cfg.TransportType = "HTTPS"
              then cfg.TransportType else "HTTP"
            Host := c.hostname }] ++ d.calls ++
        [Call.NoticeError ⟨hist.length⟩ (some e), Call.SetWebResponse ⟨hist.length⟩,
         Call.End ⟨hist.length⟩, Call.WriteHeader ⟨⟨hist.length⟩⟩ d.ctx.statusCode] ∧
      ((New deps cfg).handler next c hist).calls.countP Call.isNoticeError =
        d.calls.countP Call.isNoticeError + 1) ∧
    (d.err = none →
      ((New deps cfg).handler next c hist).calls =
        [Call.StartTransaction app (c.method ++ " " ++ c.path),
         Call.SetWebRequest ⟨hist.length⟩
          { URL := u
            Method := c.method
            Transport :=
              if cfg.TransportType = "HTTP" ∨ cfg.TransportType = "HTTPS"
              then cfg.TransportType else "HTTP"
            Host := c.hostname }] ++ d.calls ++
        [Call.SetWebResponse ⟨hist.length⟩, Call.End ⟨hist.length⟩,
         Call.WriteHeader ⟨⟨hist.length⟩⟩ d.ctx.statusCode] ∧
      ((New deps cfg).handler next c hist).calls.countP Call.isNoticeError =
        d.calls.countP Call.isNoticeError) := by
  rw [New_active deps cfg app hL hA, middleware_parse_ok _ _ _ _ _ _ u hp d hd]
  constructor
  · intro e he
    simp [he, List.countP_cons, List.countP_append, Call.isNoticeError]
  · intro he
    simp [he, List.countP_cons, List.countP_append, Call.isNoticeError]

/-- C8 at concrete inputs: the error `boom` is noticed once on the transaction
of `GET /health`. -/
theorem C8_NoticeError_on_downstream_error_witness :
    ("abc" ≠ "" ∧ sampleParse "/health" = some ⟨"/health"⟩ ∧
      (failWith "boom" ((sampleCtx "GET" "/health" "/health").setLocals txLocalTag
        (some (Any.tx (some ⟨0⟩)))) [Call.StartTransaction ⟨0⟩ "GET /health",
          Call.SetWebRequest ⟨0⟩ ⟨⟨"/health"⟩, "GET", "HTTPS", "example.com"⟩]).err =
        some "boom") ∧
    ((New sampleDeps sampleConfig).handler (failWith "boom")
      (sampleCtx "GET" "/health" "/health") []).calls =
      [Call.StartTransaction ⟨0⟩ "GET /health",
       Call.SetWebRequest ⟨0⟩ ⟨⟨"/health"⟩, "GET", "HTTPS", "example.com"⟩,
       Call.NoticeError ⟨0⟩ (some "boom"),
       Call.SetWebResponse ⟨0⟩,
       Call.End ⟨0⟩,
       Call.WriteHeader ⟨⟨0⟩⟩ 200] :=
  ⟨⟨by decide, by decide, by decide⟩,
   ((C8_NoticeError_on_downstream_error sampleDeps sampleConfig ⟨0⟩ (failWith "boom")
      (sampleCtx "GET" "/health" "/health") [] ⟨"/health"⟩ _
      (by decide) rfl (by decide) rfl).1 "boom" (by decide)).1.trans (by decide)⟩

/-- C9.  For every request handled by the active middleware, whether its URL
parses or not, the first agent call is `StartTransaction` with the name made of
the request method, one space, and the request path. -/
theorem C9_first_call_starts_named_transaction (deps : Deps) (cfg : Config)
    (app : Application) (next : Chain) (c : Ctx) (hist : List Call)
    (hL : cfg.License ≠ "")
    (hA : deps.NewApplication (if cfg.AppName = "" then "fiber-api" else cfg.AppName)
      cfg.License cfg.Enabled = .ok app) :
    ((New deps cfg).handler next c hist).calls.head? =
      some (Call.StartTransaction app (c.method ++ " " ++ c.path)) := by
  rw [New_active deps cfg app hL hA]
  cases hp : deps.Parse c.originalURL with
  | none => rw [middleware_parse_error _ _ _ _ _ _ hp]; rfl
  | some u => rw [middleware_parse_ok _ _ _ _ _ _ u hp _ rfl]; rfl

/-- C9 at a concrete input: method `GET` and path `/health` give the name
`GET /health`. -/
theorem C9_first_call_starts_named_transaction_witness :
    "abc" ≠ "" ∧
    ((New sampleDeps sampleConfig).handler (respond 200)
      (sampleCtx "GET" "/health" "/health") []).calls.head? =
      some (Call.StartTransaction ⟨0⟩ "GET /health") :=
  ⟨by decide,
   (C9_first_call_starts_named_transaction sampleDeps sampleConfig ⟨0⟩ (respond 200)
      (sampleCtx "GET" "/health" "/health") [] (by decide) rfl).trans (by decide)⟩

end Newrelicapm
